import Mathlib

/-!
Verification development for the reasoning core of the Pheonix-prime
repository (`backend/core/reasoning/`): the dual-process mode selector,
the dynamic token-budget allocator, the MCTS path-search engine, the
reasoning-chain data model, and the metacognitive orchestrator.

Conventions of the shallow embedding:
- Python `str` is modelled as `List Char`; the helpers below mirror the
  string operations the source uses (`split`, `strip`, `lower`,
  substring membership by `in`, `count`).
- Python `float` arithmetic is modelled exactly over `ℚ`; `int(x)`
  (truncation toward zero) is `pyInt`.
- A Python function that may raise returns `Except String _`; the
  dynamic message parts (formatted numbers) are omitted from the
  message text.
- A `try/except Exception` handler that converts an unexpected internal
  exception into a documented fallback value is modelled by an explicit
  `fault : Bool` argument selecting the handler's branch; the
  `ValueError` validation raises happen before it, in program order.
- Wall-clock metadata (UUIDs, datetimes, elapsed ms) is not modelled;
  the presence of `completed_at` is modelled as a `completed : Bool`
  flag set by `mark_complete`.
-/

namespace Pheonix

/-- Python strings are modelled as lists of characters. -/
abbrev Str := List Char

/-- Whitespace characters recognised by Python `str.split()` / `str.strip()`
(ASCII subset). -/
def isSpaceChar (c : Char) : Bool :=
  c == ' ' || c == '\t' || c == '\n' || c == '\r' || c == '\x0b' || c == '\x0c'

/-- Helper for `wordCount`: counts maximal runs of non-whitespace characters;
the flag records whether the previous character was whitespace (or start). -/
def wordCountAux : Bool → Str → Nat
  | _, [] => 0
  | afterSpace, c :: rest =>
    if isSpaceChar c then wordCountAux true rest
    else (if afterSpace then 1 else 0) + wordCountAux false rest

/-- Number of words of a string, as computed by Python `len(s.split())`. -/
def wordCount (s : Str) : Nat := wordCountAux true s

/-- Python `not query or len(query.strip()) == 0`: the string is empty or
all whitespace. -/
def isBlank (s : Str) : Bool := s.all isSpaceChar

/-- Python `str.lower()` (ASCII case folding). -/
def lowerStr (s : Str) : Str := s.map Char.toLower

/-- Whether the first list is an initial segment of the second. -/
def startsWithL : Str → Str → Bool
  | [], _ => true
  | _ :: _, [] => false
  | a :: as, b :: bs => a == b && startsWithL as bs

/-- Python `needle in hay` on strings: substring occurrence. -/
def hasSub (needle : Str) : Str → Bool
  | [] => startsWithL needle []
  | c :: rest => startsWithL needle (c :: rest) || hasSub needle rest

/-- Python `int(x)` on a rational: truncation toward zero. -/
def pyInt (q : ℚ) : ℤ := if 0 ≤ q then ⌊q⌋ else -⌊-q⌋

/-- Python `min` on two floats (kernel-evaluable version of `min` on `ℚ`). -/
def pyMin (a b : ℚ) : ℚ := if a ≤ b then a else b

/-- Python `max` on two floats (kernel-evaluable version of `max` on `ℚ`). -/
def pyMax (a b : ℚ) : ℚ := if b ≤ a then a else b

/-- Python `min` on two ints. -/
def pyMinI (a b : ℤ) : ℤ := if a ≤ b then a else b

/-- Python `max` on two ints. -/
def pyMaxI (a b : ℤ) : ℤ := if b ≤ a then a else b

/-- The technical-term lexicon of `DualProcessEngine._analyze_complexity`
(dual_process.py); note `optimization` occurs twice, as in the source. -/
def techTermsDP : List String :=
  ["algorithm", "optimization", "complexity", "architecture",
   "implementation", "compilation", "recursion", "polymorphism",
   "concurrency", "distributed", "binary", "hash", "encryption",
   "database", "acid", "compliance", "optimization",
   "derivative", "integral", "theorem", "proof", "equation",
   "matrix", "logarithm", "exponential", "probability", "statistics",
   "calculus", "differential", "polynomial", "geometric", "algebraic",
   "quantum", "relativity", "entropy", "momentum", "acceleration",
   "velocity", "energy", "electromagnetic", "particle", "wave",
   "entanglement", "photon", "electron", "nuclear", "thermodynamic",
   "hypothesis", "analysis", "synthesis", "experiment", "methodology",
   "variable", "correlation", "causation", "empirical", "theoretical",
   "molecular", "cellular", "genetic", "biochemical", "evolutionary",
   "economic", "implications", "fiscal", "monetary", "inflation",
   "gdp", "deficit", "policy", "taxation", "welfare", "subsidy",
   "incentive", "equilibrium", "market", "demand", "supply"]

/-- The technical-term lexicon of
`DynamicBudgetAllocator._estimate_complexity` (budget_allocator.py). -/
def techTermsBA : List String :=
  ["algorithm", "optimization", "complexity", "architecture",
   "implementation", "compilation", "recursion", "polymorphism",
   "concurrency", "distributed", "binary", "hash", "encryption",
   "derivative", "integral", "theorem", "proof", "equation",
   "matrix", "logarithm", "exponential", "probability", "statistics",
   "calculus", "differential", "polynomial", "geometric", "algebraic",
   "quantum", "relativity", "entropy", "momentum", "acceleration",
   "velocity", "energy", "electromagnetic", "particle", "wave",
   "entanglement", "photon", "electron", "nuclear", "thermodynamic",
   "hypothesis", "analysis", "synthesis", "experiment", "methodology",
   "variable", "correlation", "causation", "empirical", "theoretical",
   "molecular", "cellular", "genetic", "biochemical", "evolutionary"]

/-- The terms of `techTermsDP` that are not in `techTermsBA` (as a
multiset difference; it includes the second copy of `optimization`). -/
def dpOnlyTerms : List String :=
  ["database", "acid", "compliance", "optimization",
   "economic", "implications", "fiscal", "monetary", "inflation",
   "gdp", "deficit", "policy", "taxation", "welfare", "subsidy",
   "incentive", "equilibrium", "market", "demand", "supply"]

/-- Complex-question indicator words of `_analyze_complexity`. -/
def complexQuestionWordsDP : List String :=
  ["why", "how", "explain", "analyze", "evaluate", "compare",
   "contrast", "justify", "critique", "prove", "derive"]

/-- Simple-question indicator words of `_analyze_complexity`. -/
def simpleQuestionWordsDP : List String :=
  ["what", "who", "when", "where", "define"]

/-- Complex-question indicator words of `_estimate_complexity`. -/
def complexQuestionWordsBA : List String :=
  ["why", "how", "explain", "analyze", "evaluate", "compare",
   "contrast", "justify", "critique", "prove", "derive"]

/-- Simple-question indicator words of `_estimate_complexity`. -/
def simpleQuestionWordsBA : List String :=
  ["what", "when", "who", "where", "define"]

/-- Number of occurrences of lexicon entries as substrings of the
lowercased query: Python `sum(1 for term in technical_terms if term in
query_lower)`. -/
def techTermCount (terms : List String) (queryLower : Str) : Nat :=
  (terms.filter (fun t => hasSub t.toList queryLower)).length

/-- Whether any of the words occurs as a substring of the lowercased query. -/
def anyWordIn (ws : List String) (queryLower : Str) : Bool :=
  ws.any (fun w => hasSub w.toList queryLower)

/-- Length signal of `_analyze_complexity` (dual_process.py): distinct
higher-slope scaling above 100 words. -/
def lengthScoreDP (wc : Nat) : ℚ :=
  if wc > 100 then pyMin ((3 : ℚ)/5 + (wc : ℚ) / 100) 1
  else pyMin ((wc : ℚ) / 50) 1

/-- Length signal of `_estimate_complexity` (budget_allocator.py). -/
def lengthScoreBA (wc : Nat) : ℚ :=
  if wc > 100 then pyMin ((9 : ℚ)/10 + ((wc : ℚ) - 100) / 1000) 1
  else pyMin ((wc : ℚ) / 50) 1

/-- Question-structure signal of `_analyze_complexity`. -/
def questionScoreDP (queryLower : Str) : ℚ :=
  if anyWordIn complexQuestionWordsDP queryLower then 7/10
  else if anyWordIn simpleQuestionWordsDP queryLower then 3/10
  else 1/2

/-- Question-structure signal of `_estimate_complexity`. -/
def questionScoreBA (queryLower : Str) : ℚ :=
  if anyWordIn complexQuestionWordsBA queryLower then 7/10
  else if anyWordIn simpleQuestionWordsBA queryLower then 3/10
  else 1/2

/-- Multi-question bonus, identical in both estimators:
`min(query.count('?') * 0.1, 0.15)`. -/
def multiQuestionBonus (query : Str) : ℚ :=
  pyMin ((query.countP (fun c => c == '?') : ℚ) * (1/10)) (3/20)

/-- Embeds `DualProcessEngine._analyze_complexity` (dual_process.py
lines 222-316). -/
def analyze_complexity (query : Str) : ℚ :=
  if isBlank query then 0
  else
    pyMin (lengthScoreDP (wordCount query) * (1/5) +
         pyMin ((techTermCount techTermsDP (lowerStr query) : ℚ) / 3) 1 * (9/20) +
         questionScoreDP (lowerStr query) * (1/4) +
         multiQuestionBonus query * (1/10)) 1

/-- Embeds `DynamicBudgetAllocator._estimate_complexity`
(budget_allocator.py lines 259-348). -/
def estimate_complexity (query : Str) : ℚ :=
  if isBlank query then 0
  else
    pyMin (lengthScoreBA (wordCount query) * (1/5) +
         pyMin ((techTermCount techTermsBA (lowerStr query) : ℚ) / 3) 1 * (9/20) +
         questionScoreBA (lowerStr query) * (1/4) +
         multiQuestionBonus query * (1/10)) 1

/-! ## Data model shared by the reasoning components (`core.models`)

The `core/models.py` module itself is not part of the reasoning core
source; the two types below are reconstructed from their use sites in
`dual_process.py`, `budget_allocator.py` and `metacognitive_controller.py`
(the five `LearningReadiness` members and the `EmotionState` fields
`primary_emotion`, `valence`, `arousal`, `confidence`,
`learning_readiness` are all pinned there). -/

/-- Learning-readiness tiers, as used by the readiness lookup tables. -/
inductive LearningReadiness : Type where
  | OPTIMAL_READINESS
  | HIGH_READINESS
  | MODERATE_READINESS
  | LOW_READINESS
  | NOT_READY
deriving DecidableEq, Repr

/-- Snapshot of the user's affective/cognitive state (read-only input). -/
structure EmotionState : Type where
  primary_emotion : String
  valence : ℚ
  arousal : ℚ
  confidence : ℚ
  learning_readiness : LearningReadiness
deriving DecidableEq, Repr

/-! ## Dual-process engine (`dual_process.py`) -/

/-- Thinking modes of `DualProcessEngine`. -/
inductive ThinkingMode : Type where
  | SYSTEM1
  | SYSTEM2
  | HYBRID
deriving DecidableEq, Repr

/-- Result of thinking-mode selection.  The `reasoning` rationale text
(an f-string with interpolated numbers) is not modelled. -/
structure ThinkingDecision : Type where
  mode : ThinkingMode
  confidence : ℚ
  complexity_score : ℚ
  emotion_factor : ℚ
  load_factor : ℚ
  readiness_factor : ℚ
  estimated_time_ms : ℚ
  estimated_tokens : ℤ
deriving DecidableEq, Repr

/-- Embeds `DualProcessEngine._analyze_emotion`: emotion tag mapped to a
base confidence, blended 70/30 with valence rescaled to [0,1]. -/
def analyze_emotion (es : EmotionState) : ℚ :=
  let base_score : ℚ :=
    if es.primary_emotion = "confused" then 1/5
    else if es.primary_emotion = "frustrated" then 3/10
    else if es.primary_emotion = "anxious" then 3/10
    else if es.primary_emotion = "overwhelmed" then 1/10
    else if es.primary_emotion = "neutral" then 1/2
    else if es.primary_emotion = "curious" then 3/5
    else if es.primary_emotion = "interested" then 3/5
    else if es.primary_emotion = "confident" then 9/10
    else if es.primary_emotion = "engaged" then 4/5
    else if es.primary_emotion = "excited" then 4/5
    else if es.primary_emotion = "satisfied" then 9/10
    else 1/2
  let valence_adjustment : ℚ := (es.valence + 1) / 2
  pyMax 0 (pyMin (base_score * (7/10) + valence_adjustment * (3/10)) 1)

/-- Embeds `DualProcessEngine._analyze_cognitive_load` for a numeric
load: clamp to [0,1], then invert. -/
def analyze_cognitive_load (load : ℚ) : ℚ :=
  1 - pyMax 0 (pyMin 1 load)

/-- Embeds `DualProcessEngine._analyze_readiness`. -/
def analyze_readiness (lr : LearningReadiness) : ℚ :=
  match lr with
  | .OPTIMAL_READINESS => 1
  | .HIGH_READINESS => 4/5
  | .MODERATE_READINESS => 1/2
  | .LOW_READINESS => 3/10
  | .NOT_READY => 1/10

/-- Embeds `DualProcessEngine._make_decision` (decision tree); returns
the mode and its confidence (the rationale text is not modelled). -/
def make_decision (complexity emotion_factor load_factor readiness_factor : ℚ) :
    ThinkingMode × ℚ :=
  if complexity > 7/10 then (.SYSTEM2, 9/10)
  else if emotion_factor < 2/5 ∨ load_factor < 2/5 ∨ readiness_factor < 2/5 then
    (.SYSTEM2, 17/20)
  else if complexity < 7/20 ∧
      complexity * (3/10) + emotion_factor * (1/4) + load_factor * (1/4) +
        readiness_factor * (1/5) > 7/10 then
    (.SYSTEM1, 17/20)
  else if complexity < 1/4 ∧ emotion_factor > 3/5 then (.SYSTEM1, 9/10)
  else (.HYBRID, 3/4)

/-- Embeds `DualProcessEngine._estimate_processing`: per-mode base plus a
complexity-scaled addend, as `(time_ms, tokens)`. -/
def estimate_processing (mode : ThinkingMode) (complexity : ℚ) : ℚ × ℤ :=
  match mode with
  | .SYSTEM1 => (500 + complexity * 1000, 300 + pyInt (complexity * 700))
  | .SYSTEM2 => (3000 + complexity * 5000, 1500 + pyInt (complexity * 3000))
  | .HYBRID => (1500 + complexity * 3000, 800 + pyInt (complexity * 1700))

/-- The fallback decision returned by `select_thinking_mode`'s
`except Exception` handler. -/
def fallbackDecision : ThinkingDecision :=
  { mode := .HYBRID, confidence := 1/2, complexity_score := 1/2,
    emotion_factor := 1/2, load_factor := 1/2, readiness_factor := 1/2,
    estimated_time_ms := 2000, estimated_tokens := 1500 }

/-- Embeds `DualProcessEngine.select_thinking_mode`.  A non-string
`query` argument is modelled as `none`; `fault` models an unexpected
non-`ValueError` exception occurring after input validation (its
handler returns `fallbackDecision` instead of raising). -/
def select_thinking_mode (query : Option Str) (es : EmotionState) (load : ℚ)
    (lr : LearningReadiness) (fault : Bool) : Except String ThinkingDecision :=
  match query with
  | none => .error ("Query must be string")
  | some q =>
    if ¬(0 ≤ load ∧ load ≤ 1) then .error ("Cognitive load must be 0-1")
    else if fault then .ok fallbackDecision
    else
      let complexity := analyze_complexity q
      let emotion_factor := analyze_emotion es
      let load_factor := analyze_cognitive_load load
      let readiness_factor := analyze_readiness lr
      let md := make_decision complexity emotion_factor load_factor readiness_factor
      let est := estimate_processing md.1 complexity
      .ok { mode := md.1, confidence := md.2, complexity_score := complexity,
            emotion_factor := emotion_factor, load_factor := load_factor,
            readiness_factor := readiness_factor,
            estimated_time_ms := est.1, estimated_tokens := est.2 }

/-! ## Dynamic budget allocator (`budget_allocator.py`) -/

/-- Budget allocation modes. -/
inductive BudgetMode : Type where
  | CONSERVATIVE
  | BALANCED
  | AGGRESSIVE
deriving DecidableEq, Repr

/-- Token budget allocation for reasoning + response. -/
structure TokenBudget : Type where
  reasoning_tokens : ℤ
  response_tokens : ℤ
  total_tokens : ℤ
  complexity_score : ℚ
  emotion_factor : ℚ
  cognitive_load_factor : ℚ
  readiness_factor : ℚ
  mode : BudgetMode
deriving DecidableEq, Repr

/-- Configuration for the budget allocator (`BudgetConfig`), with the
Pydantic field defaults. -/
structure BudgetConfig : Type where
  conservative_base : ℤ := 2500
  balanced_base : ℤ := 4000
  aggressive_base : ℤ := 6500
  reasoning_ratio_min : ℚ := 2/5
  reasoning_ratio_max : ℚ := 7/10
  provider_max_tokens : ℤ := 8192
  safety_margin : ℚ := 9/10
deriving DecidableEq, Repr

/-- The Pydantic `ge`/`le` field constraints of `BudgetConfig`: every
config object the allocator can be constructed with satisfies these. -/
def BudgetConfig.Valid (c : BudgetConfig) : Prop :=
  2000 ≤ c.conservative_base ∧ c.conservative_base ≤ 3000 ∧
  3000 ≤ c.balanced_base ∧ c.balanced_base ≤ 5000 ∧
  5000 ≤ c.aggressive_base ∧ c.aggressive_base ≤ 8000 ∧
  1/5 ≤ c.reasoning_ratio_min ∧ c.reasoning_ratio_min ≤ 3/5 ∧
  1/2 ≤ c.reasoning_ratio_max ∧ c.reasoning_ratio_max ≤ 4/5 ∧
  2048 ≤ c.provider_max_tokens ∧ c.provider_max_tokens ≤ 16384 ∧
  4/5 ≤ c.safety_margin ∧ c.safety_margin ≤ 19/20

instance (c : BudgetConfig) : Decidable c.Valid := by
  unfold BudgetConfig.Valid
  infer_instance

/-- The default configuration (`BudgetConfig()`), built from the field
defaults. -/
def defaultBudgetConfig : BudgetConfig := {}

/-- Embeds `DynamicBudgetAllocator._get_emotion_factor`: emotion tag
mapped to a budget adjustment, clamped to [0.5, 2.0]. -/
def get_emotion_factor (es : EmotionState) : ℚ :=
  let factor : ℚ :=
    if es.primary_emotion = "confused" then 3/2
    else if es.primary_emotion = "frustrated" then 7/5
    else if es.primary_emotion = "anxious" then 13/10
    else if es.primary_emotion = "overwhelmed" then 3/5
    else if es.primary_emotion = "curious" then 6/5
    else if es.primary_emotion = "engaged" then 1
    else if es.primary_emotion = "confident" then 9/10
    else if es.primary_emotion = "excited" then 11/10
    else if es.primary_emotion = "neutral" then 1
    else if es.primary_emotion = "bored" then 4/5
    else 1
  pyMax (1/2) (pyMin factor 2)

/-- Embeds `DynamicBudgetAllocator._get_cognitive_load_factor`:
`1.5 - load`, clamped to [0.5, 1.5]. -/
def get_cognitive_load_factor (load : ℚ) : ℚ :=
  pyMax (1/2) (pyMin (3/2 - load) (3/2))

/-- Embeds `DynamicBudgetAllocator._get_readiness_factor`: readiness
table, clamped to [0.5, 1.3]. -/
def get_readiness_factor (lr : LearningReadiness) : ℚ :=
  let factor : ℚ :=
    match lr with
    | .OPTIMAL_READINESS => 6/5
    | .HIGH_READINESS => 1
    | .MODERATE_READINESS => 9/10
    | .LOW_READINESS => 7/10
    | .NOT_READY => 1/2
  pyMax (1/2) (pyMin factor (13/10))

/-- The struggling indicator of
`DynamicBudgetAllocator._determine_budget_mode`. -/
def is_struggling (es : EmotionState) (load : ℚ) (lr : LearningReadiness) : Prop :=
  es.primary_emotion ∈ (["confused", "frustrated", "anxious"] : List String) ∨
  (lr = .LOW_READINESS ∨ lr = .NOT_READY) ∨
  load > 7/10

instance (es : EmotionState) (load : ℚ) (lr : LearningReadiness) :
    Decidable (is_struggling es load lr) := by
  unfold is_struggling
  infer_instance

/-- The confident indicator of
`DynamicBudgetAllocator._determine_budget_mode`. -/
def is_confident (es : EmotionState) (load : ℚ) (lr : LearningReadiness) : Prop :=
  es.primary_emotion ∈ (["confident", "engaged"] : List String) ∧
  (lr = .HIGH_READINESS ∨ lr = .OPTIMAL_READINESS) ∧
  load < 2/5

instance (es : EmotionState) (load : ℚ) (lr : LearningReadiness) :
    Decidable (is_confident es load lr) := by
  unfold is_confident
  infer_instance

/-- Embeds `DynamicBudgetAllocator._determine_budget_mode`. -/
def determine_budget_mode (complexity : ℚ) (es : EmotionState) (load : ℚ)
    (lr : LearningReadiness) : BudgetMode :=
  if is_struggling es load lr ∧ complexity > 3/5 then .AGGRESSIVE
  else if is_struggling es load lr ∨ complexity > 7/10 then .AGGRESSIVE
  else if is_confident es load lr ∧ complexity < 3/10 then .CONSERVATIVE
  else .BALANCED

/-- Embeds `DynamicBudgetAllocator._get_base_budget_for_mode`. -/
def get_base_budget_for_mode (cfg : BudgetConfig) (mode : BudgetMode) : ℤ :=
  match mode with
  | .CONSERVATIVE => cfg.conservative_base
  | .BALANCED => cfg.balanced_base
  | .AGGRESSIVE => cfg.aggressive_base

/-- Embeds `DynamicBudgetAllocator._calculate_reasoning_ratio` (the
fraction of the budget given to reasoning): base 0.5, +0.15 for high
complexity, +0.1 for struggling emotions, -0.1 for confident emotions,
clamped to the configured bounds.  The source's unused `cognitive_load`
parameter is kept. -/
def calculate_reasoning_share (cfg : BudgetConfig) (complexity : ℚ)
    (es : EmotionState) (load : ℚ) : ℚ :=
  let r1 : ℚ := 1/2 + (if complexity > 7/10 then (3/20 : ℚ) else 0)
  let r2 : ℚ := r1 +
    (if es.primary_emotion ∈ (["confused", "frustrated"] : List String)
     then (1/10 : ℚ) else 0)
  let r3 : ℚ := r2 -
    (if es.primary_emotion ∈ (["confident", "engaged"] : List String)
     then (1/10 : ℚ) else 0)
  let _ := load
  pyMax cfg.reasoning_ratio_min (pyMin r3 cfg.reasoning_ratio_max)

/-- The resolved provider ceiling: `provider_max_tokens or
self.config.provider_max_tokens` (Python `or`, so an explicit `0` also
falls back to the config value). -/
def effective_max_tokens (cfg : BudgetConfig) (pmt : Option ℤ) : ℤ :=
  match pmt with
  | none => cfg.provider_max_tokens
  | some v => if v = 0 then cfg.provider_max_tokens else v

/-- `safe_max = int(max_tokens * self.config.safety_margin)`. -/
def safe_max_tokens (cfg : BudgetConfig) (pmt : Option ℤ) : ℤ :=
  pyInt ((effective_max_tokens cfg pmt : ℚ) * cfg.safety_margin)

/-- The fixed fallback budget returned by `allocate_budget`'s
`except Exception` handler. -/
def fallbackBudget : TokenBudget :=
  { reasoning_tokens := 1500, response_tokens := 1500, total_tokens := 3000,
    complexity_score := 1/2, emotion_factor := 1, cognitive_load_factor := 1,
    readiness_factor := 1, mode := .BALANCED }

/-- The main computation of `allocate_budget` (steps 2-9 of the source),
after input validation and complexity resolution have succeeded:
factors, mode, base budget, adjustment, clamping, and the
reasoning/response split. -/
def allocate_ok (cfg : BudgetConfig) (es : EmotionState) (load : ℚ)
    (complexity : ℚ) (mode? : Option BudgetMode)
    (lr? : Option LearningReadiness) (pmt : Option ℤ) : TokenBudget :=
  let safe_max := safe_max_tokens cfg pmt
  let lr := lr?.getD es.learning_readiness
  let emotion_factor := get_emotion_factor es
  let load_factor := get_cognitive_load_factor load
  let readiness_factor := get_readiness_factor lr
  let mode := mode?.getD (determine_budget_mode complexity es load lr)
  let base_budget := get_base_budget_for_mode cfg mode
  let complexity_factor : ℚ := 4/5 + complexity * (2/5)
  let adjusted_total :=
    pyInt ((base_budget : ℚ) * emotion_factor * load_factor * readiness_factor *
      complexity_factor)
  let adjusted_total := pyMinI adjusted_total safe_max
  let adjusted_total := pyMaxI adjusted_total cfg.conservative_base
  let share := calculate_reasoning_share cfg complexity es load
  let reasoning_tokens := pyInt ((adjusted_total : ℚ) * share)
  { reasoning_tokens := reasoning_tokens,
    response_tokens := adjusted_total - reasoning_tokens,
    total_tokens := adjusted_total,
    complexity_score := complexity,
    emotion_factor := emotion_factor,
    cognitive_load_factor := load_factor,
    readiness_factor := readiness_factor,
    mode := mode }

/-- Embeds `DynamicBudgetAllocator.allocate_budget`.  `ValueError`
raises (re-raised by the `except ValueError` clause) are `.error`;
`fault` models an unexpected non-`ValueError` exception occurring after
input validation, whose handler returns the fixed `fallbackBudget`
instead of raising. -/
def allocate_budget (cfg : BudgetConfig) (es : EmotionState) (load : ℚ)
    (complexity? : Option ℚ) (mode? : Option BudgetMode) (query? : Option Str)
    (lr? : Option LearningReadiness) (pmt : Option ℤ) (fault : Bool) :
    Except String TokenBudget :=
  if ¬(0 ≤ load ∧ load ≤ 1) then .error ("Cognitive load must be 0-1")
  else
    let complexityR : Except String ℚ :=
      match complexity? with
      | none =>
        match query? with
        | none => .error ("Either complexity or query must be provided")
        | some q => .ok (estimate_complexity q)
      | some c =>
        if ¬(0 ≤ c ∧ c ≤ 1) then .error ("Complexity must be 0-1") else .ok c
    match complexityR with
    | .error e => .error e
    | .ok complexity =>
      if fault then .ok fallbackBudget
      else .ok (allocate_ok cfg es load complexity mode? lr? pmt)

/-! ## Reasoning chain data structures (`reasoning_chain.py`)

UUIDs, datetimes and per-step timing metadata are not modelled; the
presence of `completed_at` is the `completed` flag.  The optional MCTS
provenance field `ucb_score` (a float produced by the transcendental
UCB formula) is omitted; `visit_count` is kept. -/

/-- Types of reasoning strategies. -/
inductive ReasoningStrategy : Type where
  | DEDUCTIVE
  | INDUCTIVE
  | ABDUCTIVE
  | ANALOGICAL
  | CAUSAL
  | ALGORITHMIC
deriving DecidableEq, Repr

/-- All members of the `ReasoningStrategy` enum (`len(ReasoningStrategy)`
in the source is the length of this list). -/
def allReasoningStrategies : List ReasoningStrategy :=
  [.DEDUCTIVE, .INDUCTIVE, .ABDUCTIVE, .ANALOGICAL, .CAUSAL, .ALGORITHMIC]

/-- Single step in a reasoning chain. -/
structure ReasoningStep : Type where
  step_number : ℕ
  content : Str
  strategy : ReasoningStrategy := .DEDUCTIVE
  confidence : ℚ := 7/10
  visit_count : Option ℕ := none
deriving DecidableEq, Repr

/-- Complete reasoning chain from query to response. -/
structure ReasoningChain : Type where
  query : Str
  steps : List ReasoningStep := []
  conclusion : Option Str := none
  thinking_mode : ThinkingMode := .SYSTEM2
  total_confidence : ℚ := 7/10
  complexity_score : ℚ := 1/2
  token_budget_allocated : Option ℤ := none
  completed : Bool := false
deriving DecidableEq, Repr

/-- Embeds `ReasoningChain.add_step`: overwrite the step's number with
`len(self.steps) + 1`, then append. -/
def ReasoningChain.add_step (c : ReasoningChain) (s : ReasoningStep) : ReasoningChain :=
  { c with steps := c.steps ++ [{ s with step_number := c.steps.length + 1 }] }

/-- Embeds `ReasoningChain.get_average_confidence`. -/
def ReasoningChain.get_average_confidence (c : ReasoningChain) : ℚ :=
  if c.steps = [] then 0
  else (c.steps.map (fun s => s.confidence)).sum / (c.steps.length : ℚ)

/-- Embeds `ReasoningChain.mark_complete`: set the conclusion, stamp the
completion time (modelled by the `completed` flag) and recompute the
total confidence. -/
def ReasoningChain.mark_complete (c : ReasoningChain) (conclusion : Str) :
    ReasoningChain :=
  { c with conclusion := some conclusion, completed := true,
           total_confidence := c.get_average_confidence }

/-! ## MCTS reasoning engine (`mcts_engine.py`)

The Python tree uses owned child lists plus non-owning parent
back-references.  The embedding stores only the owned structure
(`MCTSNode` with a `children` list) and addresses a node by the list of
child indices from the root, so "walk to the parent" operations become
operations along that path.  The external step-generation capability
(`provider_manager.generate`) is modelled as an oracle
`gen : ℕ → Option Str` giving the text of the n-th generation call, or
`none` when that call fails (`_expand` catches the exception and
returns `None`).  Loops that descend the tree take a fuel argument; a
tree grown by the engine has depth at most `max_steps`, so the callers
pass `max_steps + 1`, which makes the fuel never run out. -/

/-- MCTS tree node (content, strategy, children, visits, cumulative
value, depth). -/
inductive MCTSNode : Type where
  | mk (content : Str) (strategy : ReasoningStrategy) (children : List MCTSNode)
       (visits : ℕ) (value : ℚ) (depth : ℕ)

def MCTSNode.content : MCTSNode → Str
  | .mk c _ _ _ _ _ => c

def MCTSNode.strategy : MCTSNode → ReasoningStrategy
  | .mk _ s _ _ _ _ => s

def MCTSNode.children : MCTSNode → List MCTSNode
  | .mk _ _ ch _ _ _ => ch

def MCTSNode.visits : MCTSNode → ℕ
  | .mk _ _ _ v _ _ => v

def MCTSNode.value : MCTSNode → ℚ
  | .mk _ _ _ _ v _ => v

def MCTSNode.depth : MCTSNode → ℕ
  | .mk _ _ _ _ _ d => d

/-- Replace a node's children list. -/
def MCTSNode.withChildren : MCTSNode → List MCTSNode → MCTSNode
  | .mk c s _ v val d, ch => .mk c s ch v val d

/-- One backpropagation update: `visits += 1; value += v`. -/
def MCTSNode.bump : MCTSNode → ℚ → MCTSNode
  | .mk c s ch vis val d, v => .mk c s ch (vis + 1) (val + v) d

/-- Embeds `MCTSNode.ucb_score`: `+inf` (the top element) for an
unvisited node, otherwise exploitation `value/visits` plus exploration
`C * sqrt(ln(parent_visits) / visits)` (the exploration term is zero
when the node has no parent or the parent is unvisited; in the
embedding the parent's visit count is passed explicitly). -/
noncomputable def ucb_score (visits : ℕ) (value : ℚ) (parentVisits : ℕ)
    (explorationWeight : ℝ) : EReal :=
  if visits = 0 then ⊤
  else
    let exploitation : ℝ := ((value : ℝ)) / (visits : ℝ)
    let exploration : ℝ :=
      if 0 < parentVisits then
        explorationWeight * Real.sqrt (Real.log (parentVisits : ℝ) / (visits : ℝ))
      else 0
    ((exploitation + exploration : ℝ) : EReal)

/-- The engine's `self.exploration_weight = 1.41`. -/
noncomputable def explorationWeight : ℝ := 141/100

/-- Helper for `argmaxUCB`: Python `max(xs, key=f)` keeps the earliest
element whose key is strictly greatest. -/
noncomputable def argmaxUCBAux (f : MCTSNode → EReal) :
    ℕ → ℕ → EReal → List MCTSNode → ℕ
  | _, best, _, [] => best
  | i, best, bestVal, c :: rest =>
    if bestVal < f c then argmaxUCBAux f (i + 1) i (f c) rest
    else argmaxUCBAux f (i + 1) best bestVal rest

/-- Index of `max(children, key=f)` in a child list. -/
noncomputable def argmaxUCB (f : MCTSNode → EReal) : List MCTSNode → ℕ
  | [] => 0
  | c :: rest => argmaxUCBAux f 1 0 (f c) rest

/-- Embeds `MCTSReasoningEngine._select`: from the given node, descend
to the child with the highest UCB score until a childless node is
reached; returns the path (list of child indices). -/
noncomputable def selectPath (ew : ℝ) : ℕ → MCTSNode → List ℕ
  | 0, _ => []
  | fuel + 1, n =>
    match n.children with
    | [] => []
    | c :: cs =>
      let idx := argmaxUCB
        (fun m => ucb_score m.visits m.value n.visits ew) (c :: cs)
      idx :: selectPath ew fuel ((c :: cs).getD idx c)

/-- The node addressed by a path of child indices. -/
def getNodeAt : MCTSNode → List ℕ → Option MCTSNode
  | n, [] => some n
  | n, i :: rest =>
    match n.children.get? i with
    | none => none
    | some c => getNodeAt c rest

/-- Apply `f` to the node addressed by the path (identity on an invalid
path). -/
def updateNodeAt (f : MCTSNode → MCTSNode) : List ℕ → MCTSNode → MCTSNode
  | [], n => f n
  | i :: rest, n =>
    match n.children.get? i with
    | none => n
    | some c => n.withChildren (n.children.set i (updateNodeAt f rest c))

/-- Embeds `MCTSReasoningEngine._backpropagate`: starting at the node
addressed by the path, increment visits and add the simulated value at
the node and every ancestor up to the root. -/
def backpropagate (v : ℚ) : List ℕ → MCTSNode → MCTSNode
  | [], n => n.bump v
  | i :: rest, n =>
    match n.children.get? i with
    | none => n.bump v
    | some c => (n.bump v).withChildren (n.children.set i (backpropagate v rest c))

/-- The nodes from the root down to the addressed node (inclusive). -/
def nodesOnPath : MCTSNode → List ℕ → List MCTSNode
  | n, [] => [n]
  | n, i :: rest =>
    match n.children.get? i with
    | none => [n]
    | some c => n :: nodesOnPath c rest

/-- Embeds `MCTSReasoningEngine._simulate`: static value estimate of a
leaf from its depth, its content's word count, and the diversity of
strategies on the path to the root (the parent chain is passed as
`ancestors`). -/
def simulate (node : MCTSNode) (ancestors : List MCTSNode) : ℚ :=
  let depth_value : ℚ := pyMin ((node.depth : ℚ) / 5) 1
  let length_value : ℚ := pyMin ((wordCount node.content : ℚ) / 50) 1
  let strategies_used := ((node :: ancestors).map MCTSNode.strategy).dedup
  let diversity_bonus : ℚ :=
    (strategies_used.length : ℚ) / (allReasoningStrategies.length : ℚ) * (1/5)
  depth_value * (2/5) + length_value * (2/5) + diversity_bonus * (1/5)

/-- Embeds `MCTSReasoningEngine._infer_strategy`: keyword-based
classification of a generated step. -/
def infer_strategy (content : Str) : ReasoningStrategy :=
  let cl := lowerStr content
  if anyWordIn ["therefore", "thus", "conclude", "deduce"] cl then .DEDUCTIVE
  else if anyWordIn ["pattern", "observe", "notice", "generalize"] cl then .INDUCTIVE
  else if anyWordIn ["likely", "probably", "best explanation", "hypothesis"] cl then
    .ABDUCTIVE
  else if anyWordIn ["similar to", "like", "analogy", "comparable"] cl then
    .ANALOGICAL
  else if anyWordIn ["because", "causes", "leads to", "results in"] cl then .CAUSAL
  else if anyWordIn ["step", "next", "then", "procedure", "algorithm"] cl then
    .ALGORITHMIC
  else .DEDUCTIVE

/-- One iteration of the MCTS loop in
`MCTSReasoningEngine.generate_reasoning_chain`: selection, (guarded)
expansion, simulation, backpropagation.  The state is the tree plus the
number of generation calls made so far. -/
noncomputable def mctsIteration (gen : ℕ → Option Str) (maxSteps : ℕ)
    (st : MCTSNode × ℕ) : MCTSNode × ℕ :=
  let root := st.1
  let calls := st.2
  let selPath := selectPath explorationWeight (maxSteps + 1) root
  match getNodeAt root selPath with
  | none => st
  | some selNode =>
    let expanded : MCTSNode × List ℕ × ℕ :=
      if selNode.depth < maxSteps then
        match gen calls with
        | some content =>
          let child : MCTSNode :=
            .mk content (infer_strategy content) [] 0 0 (selNode.depth + 1)
          (updateNodeAt (fun m => m.withChildren (m.children ++ [child])) selPath root,
           selPath ++ [selNode.children.length], calls + 1)
        | none => (root, selPath, calls + 1)
      else (root, selPath, calls)
    let root1 := expanded.1
    let path1 := expanded.2.1
    let nodes := nodesOnPath root1 path1
    let target := (nodes.getLast?).getD root1
    let v := simulate target nodes.dropLast
    (backpropagate v path1 root1, expanded.2.2)

/-- Mean value `value/visits` of a node, `0` when unvisited (the key of
the best-child selection in `_extract_best_path`). -/
def meanValue (n : MCTSNode) : ℚ :=
  if n.visits > 0 then n.value / (n.visits : ℚ) else 0

/-- Helper for `argmaxMean` (Python `max(xs, key=...)`, first maximum). -/
def argmaxMeanAux : ℕ → ℕ → ℚ → List MCTSNode → ℕ
  | _, best, _, [] => best
  | i, best, bestVal, c :: rest =>
    if bestVal < meanValue c then argmaxMeanAux (i + 1) i (meanValue c) rest
    else argmaxMeanAux (i + 1) best bestVal rest

/-- Index of the child with the highest mean value. -/
def argmaxMean : List MCTSNode → ℕ
  | [] => 0
  | c :: rest => argmaxMeanAux 1 0 (meanValue c) rest

/-- Complete reasoning path from root to leaf. -/
structure ReasoningPath : Type where
  steps : List ReasoningStep := []
  total_value : ℚ := 0
  confidence : ℚ := 7/10
  conclusion : Str := []
deriving DecidableEq, Repr

/-- Descent loop of `_extract_best_path`: follow the highest mean value
from the current node to a leaf, emitting one `ReasoningStep` per
descent; returns the collected steps and the final leaf. -/
def extractSteps : ℕ → MCTSNode → List ReasoningStep →
    List ReasoningStep × MCTSNode
  | 0, n, acc => (acc, n)
  | fuel + 1, n, acc =>
    match n.children with
    | [] => (acc, n)
    | c :: cs =>
      let idx := argmaxMean (c :: cs)
      let best := (c :: cs).getD idx c
      let step : ReasoningStep :=
        { step_number := acc.length + 1, content := best.content,
          strategy := best.strategy,
          confidence := if best.visits > 0 then best.value / (best.visits : ℚ) else 1/2,
          visit_count := some best.visits }
      extractSteps fuel best (acc ++ [step])

/-- Embeds `MCTSReasoningEngine._extract_best_path`. -/
def extract_best_path (fuel : ℕ) (root : MCTSNode) : ReasoningPath :=
  let res := extractSteps fuel root []
  let leaf := res.2
  let total_value : ℚ :=
    if leaf.visits > 0 then leaf.value / (leaf.visits : ℚ) else 0
  { steps := res.1, total_value := total_value, confidence := total_value,
    conclusion :=
      match (res.1).getLast? with
      | some s => s.content
      | none => ("No reasoning steps generated").toList }

/-- Embeds `MCTSReasoningEngine.generate_reasoning_chain` with
`max_iterations` as a parameter (the controller constructs the engine
with the default of 10).  The emotion state only feeds the expansion
prompt, which is absorbed into the generation oracle. -/
noncomputable def mcts_generate_reasoning_chain (gen : ℕ → Option Str)
    (maxIterations : ℕ) (query : Str) (maxSteps : ℕ) : ReasoningPath :=
  let root : MCTSNode := .mk (("Query: ").toList ++ query) .DEDUCTIVE [] 0 0 0
  let final := (List.range (min maxIterations maxSteps)).foldl
    (fun st _ => mctsIteration gen maxSteps st) (root, 0)
  extract_best_path (maxSteps + 1) final.1

/-! ## Metacognitive controller (`metacognitive_controller.py`) -/

/-- Embeds `MetacognitiveController._calculate_reasoning_depth`
(`//` is Python floor division). -/
def calculate_reasoning_depth (mode : ThinkingMode) (b : TokenBudget) : ℕ :=
  match mode with
  | .SYSTEM1 => 2
  | .SYSTEM2 => (pyMinI 8 (pyMaxI 3 (Int.fdiv b.reasoning_tokens 400))).toNat
  | .HYBRID => (pyMinI 5 (pyMaxI 3 (Int.fdiv b.reasoning_tokens 500))).toNat

/-- Embeds `MetacognitiveController.generate_reasoning_chain`.
`hasEngine` is whether a provider manager was supplied (so
`self.mcts_engine` is not `None`); `gen` is the step-generation oracle;
`fault` models an unexpected exception inside the `try` block, whose
handler appends a single fallback step and completes the chain instead
of raising.  The emotion-state snapshot dict and wall-clock processing
time stored on the chain are not modelled; the unused `cognitive_load`
parameter is kept. -/
noncomputable def generate_reasoning_chain (query : Str) (es : EmotionState)
    (load : ℚ) (mode : ThinkingMode) (budget : TokenBudget)
    (hasEngine : Bool) (gen : ℕ → Option Str) (fault : Bool) : ReasoningChain :=
  let _ := es
  let _ := load
  let chain0 : ReasoningChain :=
    { query := query, steps := [], conclusion := none, thinking_mode := mode,
      total_confidence := 7/10, complexity_score := budget.complexity_score,
      token_budget_allocated := some budget.reasoning_tokens, completed := false }
  if fault then
    (chain0.add_step
      { step_number := 1, content := ("Analyzing query: ").toList ++ query,
        strategy := .DEDUCTIVE, confidence := 1/2, visit_count := none
      }).mark_complete (("Processing complete").toList)
  else
    let path : ReasoningPath :=
      if hasEngine then
        mcts_generate_reasoning_chain gen 10 query
          (calculate_reasoning_depth mode budget)
      else
        { steps := [{ step_number := 1,
                      content := ("Analyzing: ").toList ++ query.take 100 ++
                        ("...").toList,
                      strategy := .DEDUCTIVE, confidence := 7/10,
                      visit_count := none }],
          total_value := 1/2, confidence := 7/10,
          conclusion := ("Analysis of: ").toList ++ query.take 50 ++
            ("...").toList }
    (path.steps.foldl ReasoningChain.add_step chain0).mark_complete path.conclusion

/-! ## Concrete states used by witnesses and counterexamples -/

/-- A neutral emotion state used in concrete instantiations. -/
def esNeutral : EmotionState :=
  { primary_emotion := "neutral", valence := 0, arousal := 1/2,
    confidence := 4/5, learning_readiness := .MODERATE_READINESS }

/-- The simulation value formula as the specification states it (C6):
`0.4*min(depth/5,1) + 0.4*min(word_count/50,1) + 0.2*(distinct strategy
tags on the path to the root / total known tags)`.  Written from the
claim's words, to be compared with `simulate`. -/
def simulateClaimFormula (node : MCTSNode) (ancestors : List MCTSNode) : ℚ :=
  (2/5) * min ((node.depth : ℚ) / 5) 1 +
  (2/5) * min ((wordCount node.content : ℚ) / 50) 1 +
  (1/5) * ((((node :: ancestors).map MCTSNode.strategy).dedup.length : ℚ) /
    (allReasoningStrategies.length : ℚ))

/-! ## General-purpose lemmas about the Python arithmetic helpers -/

theorem pyMin_eq_min (a b : ℚ) : pyMin a b = min a b := by
  unfold pyMin
  split_ifs with h
  · exact (min_eq_left h).symm
  · exact (min_eq_right (le_of_not_le h)).symm

theorem pyMax_eq_max (a b : ℚ) : pyMax a b = max a b := by
  unfold pyMax
  split_ifs with h
  · exact (max_eq_left h).symm
  · exact (max_eq_right (le_of_not_le h)).symm

theorem pyMinI_eq_min (a b : ℤ) : pyMinI a b = min a b := by
  unfold pyMinI
  split_ifs with h
  · exact (min_eq_left h).symm
  · exact (min_eq_right (le_of_not_le h)).symm

theorem pyMaxI_eq_max (a b : ℤ) : pyMaxI a b = max a b := by
  unfold pyMaxI
  split_ifs with h
  · exact (max_eq_left h).symm
  · exact (max_eq_right (le_of_not_le h)).symm

theorem pyInt_eq_floor {q : ℚ} (h : 0 ≤ q) : pyInt q = ⌊q⌋ := by
  rw [pyInt, if_pos h]

theorem pyInt_mono {a b : ℚ} (h : a ≤ b) : pyInt a ≤ pyInt b := by
  unfold pyInt
  split_ifs with ha hb hb
  · exact Int.floor_le_floor h
  · exact absurd (le_trans ha h) hb
  · have h1 : 0 ≤ ⌊-a⌋ := Int.floor_nonneg.mpr (by linarith)
    have h2 : 0 ≤ ⌊b⌋ := Int.floor_nonneg.mpr hb
    omega
  · have := Int.floor_le_floor (neg_le_neg h)
    omega

/-! ## Lemmas about the budget allocator -/

theorem allocate_ok_complexity (cfg : BudgetConfig) (es : EmotionState)
    (load c : ℚ) (m? : Option BudgetMode) (lr? : Option LearningReadiness)
    (pmt : Option ℤ) :
    (allocate_ok cfg es load c m? lr? pmt).complexity_score = c := by
  simp [allocate_ok]

theorem allocate_budget_ok_shape {cfg : BudgetConfig} {es : EmotionState}
    {load : ℚ} {c? : Option ℚ} {m? : Option BudgetMode} {q? : Option Str}
    {lr? : Option LearningReadiness} {pmt : Option ℤ} {b : TokenBudget}
    (h : allocate_budget cfg es load c? m? q? lr? pmt false = .ok b) :
    ∃ c, b = allocate_ok cfg es load c m? lr? pmt := by
  by_cases hl : ¬(0 ≤ load ∧ load ≤ 1)
  · rw [allocate_budget.eq_def, if_pos hl] at h
    exact absurd h (by simp)
  · rw [allocate_budget.eq_def, if_neg hl] at h
    cases c? with
    | some c =>
      by_cases hc : ¬(0 ≤ c ∧ c ≤ 1)
      · simp [hc] at h
      · simp [hc] at h
        exact ⟨c, h.symm⟩
    | none =>
      cases q? with
      | none => simp at h
      | some q =>
        simp at h
        exact ⟨estimate_complexity q, h.symm⟩

theorem allocate_budget_fault_shape {cfg : BudgetConfig} {es : EmotionState}
    {load : ℚ} {c? : Option ℚ} {m? : Option BudgetMode} {q? : Option Str}
    {lr? : Option LearningReadiness} {pmt : Option ℤ} {b : TokenBudget}
    (h : allocate_budget cfg es load c? m? q? lr? pmt true = .ok b) :
    b = fallbackBudget := by
  by_cases hl : ¬(0 ≤ load ∧ load ≤ 1)
  · rw [allocate_budget.eq_def, if_pos hl] at h
    exact absurd h (by simp)
  · rw [allocate_budget.eq_def, if_neg hl] at h
    cases c? with
    | some c =>
      by_cases hc : ¬(0 ≤ c ∧ c ≤ 1)
      · simp [hc] at h
      · simp [hc] at h
        exact h.symm
    | none =>
      cases q? with
      | none => simp at h
      | some q =>
        simp at h
        exact h.symm

theorem share_ge_min (cfg : BudgetConfig) (c : ℚ) (es : EmotionState) (load : ℚ) :
    cfg.reasoning_ratio_min ≤ calculate_reasoning_share cfg c es load := by
  unfold calculate_reasoning_share
  rw [pyMax_eq_max]
  exact le_max_left _ _

theorem allocate_ok_total_ge_floor (cfg : BudgetConfig) (es : EmotionState)
    (load c : ℚ) (m? : Option BudgetMode) (lr? : Option LearningReadiness)
    (pmt : Option ℤ) :
    cfg.conservative_base ≤ (allocate_ok cfg es load c m? lr? pmt).total_tokens := by
  simp only [allocate_ok]
  rw [pyMaxI_eq_max]
  exact le_max_right _ _

/-! ## Concrete evaluations of the allocator, used by witnesses -/

theorem defaultConfigValid : defaultBudgetConfig.Valid := by
  norm_num [BudgetConfig.Valid, defaultBudgetConfig]

theorem ef_neutral : get_emotion_factor esNeutral = 1 := by
  simp [get_emotion_factor, esNeutral]
  norm_num [pyMax, pyMin]

theorem lf_half : get_cognitive_load_factor (1/2) = 1 := by
  norm_num [get_cognitive_load_factor, pyMax, pyMin]

theorem rf_moderate : get_readiness_factor .MODERATE_READINESS = 9/10 := by
  norm_num [get_readiness_factor, pyMax, pyMin]

theorem not_struggling_neutral : ¬ is_struggling esNeutral (1/2) .MODERATE_READINESS := by
  simp [is_struggling, esNeutral]
  norm_num

theorem mode_neutral_half :
    determine_budget_mode (1/2) esNeutral (1/2) .MODERATE_READINESS = .BALANCED := by
  simp [determine_budget_mode, is_struggling, is_confident, esNeutral]
  norm_num

theorem share_neutral_half :
    calculate_reasoning_share defaultBudgetConfig (1/2) esNeutral (1/2) = 1/2 := by
  simp [calculate_reasoning_share, esNeutral, defaultBudgetConfig]
  norm_num [pyMax, pyMin]

theorem safe_max_default : safe_max_tokens defaultBudgetConfig none = 7372 := by
  simp [safe_max_tokens, effective_max_tokens, defaultBudgetConfig, pyInt]
  norm_num

theorem alloc_ok_neutral :
    allocate_ok defaultBudgetConfig esNeutral (1/2) (1/2) none
      (some .MODERATE_READINESS) none
    = ⟨1800, 1800, 3600, 1/2, 1, 1, 9/10, .BALANCED⟩ := by
  unfold allocate_ok
  rw [ef_neutral, lf_half]
  simp only [Option.getD_some, Option.getD_none, rf_moderate, mode_neutral_half,
    share_neutral_half, safe_max_default]
  norm_num [get_base_budget_for_mode, defaultBudgetConfig, pyInt, pyMinI, pyMaxI]

theorem alloc_neutral :
    allocate_budget defaultBudgetConfig esNeutral (1/2) (some (1/2)) none
      none (some .MODERATE_READINESS) none false
    = .ok ⟨1800, 1800, 3600, 1/2, 1, 1, 9/10, .BALANCED⟩ := by
  rw [show (.ok ⟨1800, 1800, 3600, 1/2, 1, 1, 9/10, .BALANCED⟩ :
      Except String TokenBudget)
    = .ok (allocate_ok defaultBudgetConfig esNeutral (1/2) (1/2) none
      (some .MODERATE_READINESS) none) from by rw [alloc_ok_neutral]]
  simp [allocate_budget]
  norm_num

/-! ## C9: append renumbering -/

theorem add_step_foldl_numbers (ss : List ReasoningStep) :
    ∀ c : ReasoningChain,
      ((ss.foldl ReasoningChain.add_step c).steps.map (fun s => s.step_number))
        = c.steps.map (fun s => s.step_number) ++
          List.range' (c.steps.length + 1) ss.length := by
  induction ss with
  | nil => intro c; simp
  | cons s ss ih =>
    intro c
    rw [List.foldl_cons, ih]
    simp [ReasoningChain.add_step, List.range'_succ]

theorem add_step_foldl_contents (ss : List ReasoningStep) :
    ∀ c : ReasoningChain,
      ((ss.foldl ReasoningChain.add_step c).steps.map (fun s => s.content))
        = c.steps.map (fun s => s.content) ++ ss.map (fun s => s.content) := by
  induction ss with
  | nil => intro c; simp
  | cons s ss ih =>
    intro c
    rw [List.foldl_cons, ih]
    simp [ReasoningChain.add_step]

/-- C9: starting from a chain with no steps, appending any sequence of
steps through `ReasoningChain.add_step` yields step numbers exactly
`1..K` (contiguous, in append order), regardless of the step numbers
the appended steps carried before, and preserves the appended contents
in order. -/
theorem C9_add_step_renumbers (c : ReasoningChain) (h : c.steps = [])
    (ss : List ReasoningStep) :
    ((ss.foldl ReasoningChain.add_step c).steps.map (fun s => s.step_number))
      = List.range' 1 ss.length ∧
    ((ss.foldl ReasoningChain.add_step c).steps.map (fun s => s.content))
      = ss.map (fun s => s.content) := by
  constructor
  · rw [add_step_foldl_numbers, h]; simp
  · rw [add_step_foldl_contents, h]; simp

/-- Witness for C9: two steps carrying bogus numbers 7 and 5 get
renumbered to 1, 2. -/
theorem C9_witness :
    ((([⟨7, ['a'], .DEDUCTIVE, 1, none⟩, ⟨5, ['b'], .DEDUCTIVE, 1, none⟩] :
        List ReasoningStep).foldl ReasoningChain.add_step
          { query := [] }).steps.map (fun s => s.step_number)) = [1, 2] := by
  have h := C9_add_step_renumbers { query := [] } rfl
    [⟨7, ['a'], .DEDUCTIVE, 1, none⟩, ⟨5, ['b'], .DEDUCTIVE, 1, none⟩]
  simpa using h.1

/-! ## C8: complexity estimator bounds -/

theorem lengthScoreDP_nonneg (wc : ℕ) : 0 ≤ lengthScoreDP wc := by
  unfold lengthScoreDP
  simp only [pyMin_eq_min]
  split_ifs <;> positivity

theorem lengthScoreBA_nonneg (wc : ℕ) : 0 ≤ lengthScoreBA wc := by
  unfold lengthScoreBA
  simp only [pyMin_eq_min]
  split_ifs with h
  · have h100 : (100 : ℚ) ≤ (wc : ℚ) := by exact_mod_cast h.le
    apply le_min _ zero_le_one
    linarith
  · positivity

theorem questionScoreDP_bounds (q : Str) :
    0 ≤ questionScoreDP q ∧ questionScoreDP q ≤ 1 := by
  unfold questionScoreDP
  split_ifs <;> norm_num

theorem questionScoreBA_bounds (q : Str) :
    0 ≤ questionScoreBA q ∧ questionScoreBA q ≤ 1 := by
  unfold questionScoreBA
  split_ifs <;> norm_num

theorem multiQuestionBonus_nonneg (q : Str) : 0 ≤ multiQuestionBonus q := by
  unfold multiQuestionBonus
  simp only [pyMin_eq_min]
  positivity

theorem techScore_nonneg (terms : List String) (q : Str) :
    0 ≤ pyMin ((techTermCount terms q : ℚ) / 3) 1 := by
  simp only [pyMin_eq_min]
  positivity

theorem analyze_complexity_bounds (q : Str) :
    0 ≤ analyze_complexity q ∧ analyze_complexity q ≤ 1 := by
  unfold analyze_complexity
  split_ifs with h
  · norm_num
  · rw [pyMin_eq_min]
    refine ⟨le_min ?_ zero_le_one, min_le_right _ _⟩
    have h1 := lengthScoreDP_nonneg (wordCount q)
    have h2 := techScore_nonneg techTermsDP (lowerStr q)
    have h3 := (questionScoreDP_bounds (lowerStr q)).1
    have h4 := multiQuestionBonus_nonneg q
    nlinarith

theorem estimate_complexity_bounds (q : Str) :
    0 ≤ estimate_complexity q ∧ estimate_complexity q ≤ 1 := by
  unfold estimate_complexity
  split_ifs with h
  · norm_num
  · rw [pyMin_eq_min]
    refine ⟨le_min ?_ zero_le_one, min_le_right _ _⟩
    have h1 := lengthScoreBA_nonneg (wordCount q)
    have h2 := techScore_nonneg techTermsBA (lowerStr q)
    have h3 := (questionScoreBA_bounds (lowerStr q)).1
    have h4 := multiQuestionBonus_nonneg q
    nlinarith

/-- C8: both complexity estimators always return a value in [0,1], and
return exactly 0 on an empty or all-whitespace query. -/
theorem C8_complexity_bounds (q : Str) :
    (0 ≤ analyze_complexity q ∧ analyze_complexity q ≤ 1) ∧
    (0 ≤ estimate_complexity q ∧ estimate_complexity q ≤ 1) ∧
    (isBlank q = true → analyze_complexity q = 0 ∧ estimate_complexity q = 0) := by
  refine ⟨analyze_complexity_bounds q, estimate_complexity_bounds q, fun hb => ?_⟩
  constructor
  · unfold analyze_complexity; rw [if_pos hb]
  · unfold estimate_complexity; rw [if_pos hb]

/-- Witness for C8: the single-space query is blank, and both
estimators return exactly 0 on it. -/
theorem C8_witness :
    analyze_complexity ([' ']) = 0 ∧ estimate_complexity ([' ']) = 0 :=
  (C8_complexity_bounds ([' '])).2.2 (by decide)

/-! ## C10: non-string query raises; other internal errors fall back -/

/-- C10: `select_thinking_mode` returns a ValueError to the caller when
the query is not a string (modelled as `none`), for every other input;
by contrast an unexpected internal error after validation produces the
normal-return Hybrid fallback decision with confidence 0.5. -/
theorem C10_query_type_validation :
    (∀ (es : EmotionState) (load : ℚ) (lr : LearningReadiness) (fault : Bool),
      select_thinking_mode none es load lr fault = .error ("Query must be string")) ∧
    (∀ (q : Str) (es : EmotionState) (load : ℚ) (lr : LearningReadiness),
      0 ≤ load → load ≤ 1 →
        select_thinking_mode (some q) es load lr true = .ok fallbackDecision) ∧
    fallbackDecision.mode = .HYBRID ∧ fallbackDecision.confidence = 1/2 := by
  refine ⟨fun es load lr fault => rfl, fun q es load lr h0 h1 => ?_, rfl, rfl⟩
  simp [select_thinking_mode, h0, h1]

/-- Witness for C10: concrete fallback return on an internal fault. -/
theorem C10_witness :
    select_thinking_mode (some (['h', 'i'])) esNeutral (1/2) .MODERATE_READINESS true
      = .ok fallbackDecision :=
  C10_query_type_validation.2.1 (['h', 'i']) esNeutral (1/2) .MODERATE_READINESS
    (by norm_num) (by norm_num)

/-! ## C2: out-of-range cognitive load -/

/-- C2 (amended): an out-of-range cognitive load is rejected with a
ValueError by BOTH `allocate_budget` and `select_thinking_mode`; the
mode selector's clamping (`_analyze_cognitive_load`) is never reached
for an out-of-range numeric load because the validation raise precedes
it. -/
theorem C2_load_rejected_by_both (es : EmotionState) (load : ℚ)
    (h : ¬(0 ≤ load ∧ load ≤ 1)) :
    (∀ (cfg : BudgetConfig) (c? : Option ℚ) (m? : Option BudgetMode)
       (q? : Option Str) (lr? : Option LearningReadiness) (pmt : Option ℤ)
       (fault : Bool),
       allocate_budget cfg es load c? m? q? lr? pmt fault
         = .error ("Cognitive load must be 0-1")) ∧
    (∀ (q : Str) (lr : LearningReadiness) (fault : Bool),
       select_thinking_mode (some q) es load lr fault
         = .error ("Cognitive load must be 0-1")) := by
  constructor
  · intro cfg c? m? q? lr? pmt fault
    simp [allocate_budget, h]
  · intro q lr fault
    simp [select_thinking_mode, h]

/-- Counterexample for C2 as stated: at cognitive_load = -0.5 the mode
selector does NOT clamp and return a normal decision; it raises the
same ValueError as the allocator. -/
theorem C2_counterexample :
    select_thinking_mode (some (['h', 'i'])) esNeutral (-(1/2))
      .MODERATE_READINESS false
      = .error ("Cognitive load must be 0-1") := by
  simp [select_thinking_mode]

/-- Witness for C2 (amended) at load = 1.5. -/
theorem C2_witness :
    allocate_budget defaultBudgetConfig esNeutral (3/2) none none none none
      none false = .error ("Cognitive load must be 0-1") ∧
    select_thinking_mode (some (['h', 'i'])) esNeutral (3/2)
      .MODERATE_READINESS false = .error ("Cognitive load must be 0-1") := by
  have h := C2_load_rejected_by_both esNeutral (3/2) (by norm_num)
  exact ⟨h.1 defaultBudgetConfig none none none none none false,
         h.2 (['h', 'i']) .MODERATE_READINESS false⟩

/-! ## C4: exact reasoning/response split -/

/-- C4: on every successful non-fallback allocation the returned budget
satisfies `reasoning_tokens + response_tokens = total_tokens` exactly,
with `reasoning_tokens = floor(total * reasoning_ratio)` for the
reasoning ratio computed from the budget's complexity score. -/
theorem C4_exact_split (cfg : BudgetConfig) (es : EmotionState) (load : ℚ)
    (c? : Option ℚ) (m? : Option BudgetMode) (q? : Option Str)
    (lr? : Option LearningReadiness) (pmt : Option ℤ) (b : TokenBudget)
    (hv : cfg.Valid)
    (h : allocate_budget cfg es load c? m? q? lr? pmt false = .ok b) :
    b.reasoning_tokens + b.response_tokens = b.total_tokens ∧
    b.reasoning_tokens
      = ⌊(b.total_tokens : ℚ) *
          calculate_reasoning_share cfg b.complexity_score es load⌋ := by
  obtain ⟨c, rfl⟩ := allocate_budget_ok_shape h
  constructor
  · simp only [allocate_ok]
    ring
  · rw [allocate_ok_complexity]
    have hfloor := allocate_ok_total_ge_floor cfg es load c m? lr? pmt
    have hcons : (2000 : ℤ) ≤ cfg.conservative_base := hv.1
    have hshare : (1 : ℚ)/5 ≤ calculate_reasoning_share cfg c es load :=
      le_trans hv.2.2.2.2.2.2.1 (share_ge_min cfg c es load)
    have htot : (0 : ℚ) ≤ ((allocate_ok cfg es load c m? lr? pmt).total_tokens : ℚ) := by
      have : (0 : ℤ) ≤ (allocate_ok cfg es load c m? lr? pmt).total_tokens := by omega
      exact_mod_cast this
    have harg : (0 : ℚ) ≤
        ((allocate_ok cfg es load c m? lr? pmt).total_tokens : ℚ) *
          calculate_reasoning_share cfg c es load :=
      mul_nonneg htot (by linarith)
    simp only [allocate_ok] at harg ⊢
    rw [pyInt_eq_floor harg]

/-- Witness for C4 at the concrete neutral allocation (1800 + 1800 =
3600, and 1800 = floor(3600 * 0.5)). -/
theorem C4_witness :
    ((⟨1800, 1800, 3600, 1/2, 1, 1, 9/10, .BALANCED⟩ : TokenBudget).reasoning_tokens +
      (⟨1800, 1800, 3600, 1/2, 1, 1, 9/10, .BALANCED⟩ : TokenBudget).response_tokens =
      (⟨1800, 1800, 3600, 1/2, 1, 1, 9/10, .BALANCED⟩ : TokenBudget).total_tokens) ∧
    ((⟨1800, 1800, 3600, 1/2, 1, 1, 9/10, .BALANCED⟩ : TokenBudget).reasoning_tokens
      = ⌊(((⟨1800, 1800, 3600, 1/2, 1, 1, 9/10, .BALANCED⟩ : TokenBudget).total_tokens : ℚ)) *
          calculate_reasoning_share defaultBudgetConfig
            (⟨1800, 1800, 3600, 1/2, 1, 1, 9/10, .BALANCED⟩ : TokenBudget).complexity_score
            esNeutral (1/2)⌋) :=
  C4_exact_split defaultBudgetConfig esNeutral (1/2) (some (1/2)) none none
    (some .MODERATE_READINESS) none _ defaultConfigValid alloc_neutral

/-! ## C1: total budget vs the provider ceiling -/

/-- C1 (amended): every budget returned by `allocate_budget` satisfies
`total_tokens <= max(safe_max, conservative_base, 3000)`; the claimed
unconditional bound `total <= ceiling * safety_margin` holds on the
non-fallback path exactly when the configured floor
(`conservative_base`) does not exceed `safe_max`, because the floor
clamp is applied after the `safe_max` cap (and the fixed fallback
budget of 3000 tokens ignores the ceiling entirely). -/
theorem C1_total_ceiling_bound (cfg : BudgetConfig) (es : EmotionState) (load : ℚ)
    (c? : Option ℚ) (m? : Option BudgetMode) (q? : Option Str)
    (lr? : Option LearningReadiness) (pmt : Option ℤ) (fault : Bool)
    (b : TokenBudget) (hv : cfg.Valid)
    (h : allocate_budget cfg es load c? m? q? lr? pmt fault = .ok b) :
    b.total_tokens ≤ max (safe_max_tokens cfg pmt)
      (max cfg.conservative_base 3000) ∧
    (fault = false → cfg.conservative_base ≤ safe_max_tokens cfg pmt →
      (b.total_tokens : ℚ) ≤ (effective_max_tokens cfg pmt : ℚ) *
        cfg.safety_margin) := by
  cases fault with
  | true =>
    rw [allocate_budget_fault_shape h]
    refine ⟨?_, fun hf _ => by cases hf⟩
    show (3000 : ℤ) ≤ _
    exact le_trans (le_max_right _ 3000) (le_max_right _ _)
  | false =>
    obtain ⟨c, rfl⟩ := allocate_budget_ok_shape h
    constructor
    · simp only [allocate_ok, pyMaxI_eq_max, pyMinI_eq_min]
      exact max_le (le_trans (min_le_right _ _) (le_max_left _ _))
        (le_trans (le_max_left _ 3000) (le_max_right _ _))
    · intro _ hfloor
      have hS : (allocate_ok cfg es load c m? lr? pmt).total_tokens
          ≤ safe_max_tokens cfg pmt := by
        simp only [allocate_ok, pyMaxI_eq_max, pyMinI_eq_min]
        exact max_le (min_le_right _ _) hfloor
      have hcons : (2000 : ℤ) ≤ cfg.conservative_base := hv.1
      have hSge : (2000 : ℤ) ≤ safe_max_tokens cfg pmt := le_trans hcons hfloor
      have harg : (0 : ℚ) ≤ (effective_max_tokens cfg pmt : ℚ) * cfg.safety_margin := by
        by_contra hneg
        push_neg at hneg
        have hbad : safe_max_tokens cfg pmt ≤ 0 := by
          unfold safe_max_tokens
          rw [pyInt, if_neg (not_le.mpr hneg)]
          have : 0 ≤ ⌊-((effective_max_tokens cfg pmt : ℚ) * cfg.safety_margin)⌋ :=
            Int.floor_nonneg.mpr (by linarith)
          omega
        omega
      have hfl : (safe_max_tokens cfg pmt : ℚ)
          ≤ (effective_max_tokens cfg pmt : ℚ) * cfg.safety_margin := by
        unfold safe_max_tokens
        rw [pyInt_eq_floor harg]
        exact Int.floor_le _
      have hq : ((allocate_ok cfg es load c m? lr? pmt).total_tokens : ℚ)
          ≤ (safe_max_tokens cfg pmt : ℚ) := by exact_mod_cast hS
      linarith

theorem lf_zero : get_cognitive_load_factor 0 = 3/2 := by
  norm_num [get_cognitive_load_factor, pyMax, pyMin]

theorem rf_optimal : get_readiness_factor .OPTIMAL_READINESS = 6/5 := by
  norm_num [get_readiness_factor, pyMax, pyMin]

theorem share_neutral_zero :
    calculate_reasoning_share defaultBudgetConfig 0 esNeutral 0 = 1/2 := by
  simp [calculate_reasoning_share, esNeutral, defaultBudgetConfig]
  norm_num [pyMax, pyMin]

theorem safe_max_2048 : safe_max_tokens defaultBudgetConfig (some 2048) = 1843 := by
  simp [safe_max_tokens, effective_max_tokens, defaultBudgetConfig, pyInt]
  norm_num

theorem alloc_ok_2048 :
    allocate_ok defaultBudgetConfig esNeutral 0 0 (some .CONSERVATIVE)
      (some .OPTIMAL_READINESS) (some 2048)
    = ⟨1250, 1250, 2500, 0, 1, 3/2, 6/5, .CONSERVATIVE⟩ := by
  unfold allocate_ok
  rw [ef_neutral, lf_zero]
  simp only [Option.getD_some, rf_optimal, share_neutral_zero, safe_max_2048]
  norm_num [get_base_budget_for_mode, defaultBudgetConfig, pyInt, pyMinI, pyMaxI]

theorem alloc_2048 :
    allocate_budget defaultBudgetConfig esNeutral 0 (some 0) (some .CONSERVATIVE)
      none (some .OPTIMAL_READINESS) (some 2048) false
    = .ok ⟨1250, 1250, 2500, 0, 1, 3/2, 6/5, .CONSERVATIVE⟩ := by
  rw [show (.ok ⟨1250, 1250, 2500, 0, 1, 3/2, 6/5, .CONSERVATIVE⟩ :
      Except String TokenBudget)
    = .ok (allocate_ok defaultBudgetConfig esNeutral 0 0 (some .CONSERVATIVE)
      (some .OPTIMAL_READINESS) (some 2048)) from by rw [alloc_ok_2048]]
  simp [allocate_budget]

/-- Counterexample for C1 as stated: with the default configuration and
a provider ceiling of 2048, the allocation total is 2500 (the
conservative floor), which exceeds ceiling * safety_margin = 1843.2;
so the bound fails for this ceiling. -/
theorem C1_counterexample :
    (allocate_budget defaultBudgetConfig esNeutral 0 (some 0) (some .CONSERVATIVE)
      none (some .OPTIMAL_READINESS) (some 2048) false
      = .ok ⟨1250, 1250, 2500, 0, 1, 3/2, 6/5, .CONSERVATIVE⟩) ∧
    ¬ (((⟨1250, 1250, 2500, 0, 1, 3/2, 6/5, .CONSERVATIVE⟩ :
          TokenBudget).total_tokens : ℚ)
        ≤ (2048 : ℚ) * defaultBudgetConfig.safety_margin) := by
  refine ⟨alloc_2048, ?_⟩
  norm_num [defaultBudgetConfig]

/-- Witness for C1 (amended) at the concrete neutral allocation. -/
theorem C1_witness :
    ((⟨1800, 1800, 3600, 1/2, 1, 1, 9/10, .BALANCED⟩ : TokenBudget).total_tokens
       ≤ max (safe_max_tokens defaultBudgetConfig none)
           (max defaultBudgetConfig.conservative_base 3000)) ∧
    (((⟨1800, 1800, 3600, 1/2, 1, 1, 9/10, .BALANCED⟩ : TokenBudget).total_tokens : ℚ)
       ≤ (effective_max_tokens defaultBudgetConfig none : ℚ) *
           defaultBudgetConfig.safety_margin) := by
  have h := C1_total_ceiling_bound defaultBudgetConfig esNeutral (1/2) (some (1/2)) none none
    (some .MODERATE_READINESS) none false _ defaultConfigValid alloc_neutral
  refine ⟨h.1, h.2 rfl ?_⟩
  rw [safe_max_default]
  norm_num [defaultBudgetConfig]

/-! ## C7: monotonicity in the complexity argument -/

theorem allocate_budget_some_ok {cfg : BudgetConfig} {es : EmotionState}
    {load c : ℚ} {m? : Option BudgetMode} {q? : Option Str}
    {lr? : Option LearningReadiness} {pmt : Option ℤ} {b : TokenBudget}
    (h : allocate_budget cfg es load (some c) m? q? lr? pmt false = .ok b) :
    b = allocate_ok cfg es load c m? lr? pmt := by
  by_cases hl : ¬(0 ≤ load ∧ load ≤ 1)
  · rw [allocate_budget.eq_def, if_pos hl] at h
    exact absurd h (by simp)
  · rw [allocate_budget.eq_def, if_neg hl] at h
    by_cases hc : ¬(0 ≤ c ∧ c ≤ 1)
    · simp [hc] at h
    · simp [hc] at h
      exact h.symm

theorem base_ge_2000 (cfg : BudgetConfig) (hv : cfg.Valid) (m : BudgetMode) :
    (2000 : ℤ) ≤ get_base_budget_for_mode cfg m := by
  obtain ⟨h1, -, h3, -, h5, -⟩ := hv
  cases m <;> simp [get_base_budget_for_mode] <;> omega

theorem base_determine_mono (cfg : BudgetConfig) (hv : cfg.Valid)
    (es : EmotionState) (load : ℚ) (lr : LearningReadiness) {c₁ c₂ : ℚ}
    (h : c₁ ≤ c₂) :
    get_base_budget_for_mode cfg (determine_budget_mode c₁ es load lr)
      ≤ get_base_budget_for_mode cfg (determine_budget_mode c₂ es load lr) := by
  have h1 : cfg.conservative_base ≤ cfg.balanced_base := le_trans hv.2.1 hv.2.2.1
  have h2 : cfg.balanced_base ≤ cfg.aggressive_base :=
    le_trans hv.2.2.2.1 hv.2.2.2.2.1
  have i1 : c₁ > 3/5 → c₂ > 3/5 := fun hh => lt_of_lt_of_le hh h
  have i2 : c₁ > 7/10 → c₂ > 7/10 := fun hh => lt_of_lt_of_le hh h
  have i3 : c₂ < 3/10 → c₁ < 3/10 := fun hh => lt_of_le_of_lt h hh
  unfold determine_budget_mode
  split_ifs <;>
    simp only [get_base_budget_for_mode] <;>
    first
      | rfl
      | exact h1
      | exact h2
      | exact le_trans h1 h2
      | tauto

theorem ef_ge_half (es : EmotionState) : 1/2 ≤ get_emotion_factor es := by
  unfold get_emotion_factor
  rw [pyMax_eq_max]
  exact le_max_left _ _

theorem lf_ge_half (load : ℚ) : 1/2 ≤ get_cognitive_load_factor load := by
  unfold get_cognitive_load_factor
  rw [pyMax_eq_max]
  exact le_max_left _ _

theorem rf_ge_half (lr : LearningReadiness) : 1/2 ≤ get_readiness_factor lr := by
  unfold get_readiness_factor
  rw [pyMax_eq_max]
  exact le_max_left _ _

theorem allocate_ok_total_mono (cfg : BudgetConfig) (hv : cfg.Valid)
    (es : EmotionState) (load : ℚ) (m? : Option BudgetMode)
    (lr? : Option LearningReadiness) (pmt : Option ℤ) {c₁ c₂ : ℚ}
    (h0 : 0 ≤ c₁) (h : c₁ ≤ c₂) :
    (allocate_ok cfg es load c₁ m? lr? pmt).total_tokens
      ≤ (allocate_ok cfg es load c₂ m? lr? pmt).total_tokens := by
  have hef := ef_ge_half es
  have hlf := lf_ge_half load
  have hrf := rf_ge_half (lr?.getD es.learning_readiness)
  have hbase : get_base_budget_for_mode cfg
      (m?.getD (determine_budget_mode c₁ es load (lr?.getD es.learning_readiness)))
      ≤ get_base_budget_for_mode cfg
      (m?.getD (determine_budget_mode c₂ es load (lr?.getD es.learning_readiness))) := by
    cases m? with
    | some m => simp
    | none => simpa using base_determine_mono cfg hv es load _ h
  have hbase1 : (2000 : ℤ) ≤ get_base_budget_for_mode cfg
      (m?.getD (determine_budget_mode c₁ es load (lr?.getD es.learning_readiness))) := by
    cases m? with
    | some m => simpa using base_ge_2000 cfg hv m
    | none => simpa using base_ge_2000 cfg hv _
  simp only [allocate_ok]
  rw [pyMaxI_eq_max, pyMaxI_eq_max, pyMinI_eq_min, pyMinI_eq_min]
  apply max_le_max _ le_rfl
  apply min_le_min _ le_rfl
  apply pyInt_mono
  have hb1 : (2000 : ℚ) ≤ ((get_base_budget_for_mode cfg
      (m?.getD (determine_budget_mode c₁ es load (lr?.getD es.learning_readiness))) : ℤ) : ℚ) := by
    exact_mod_cast hbase1
  have hbQ : ((get_base_budget_for_mode cfg
      (m?.getD (determine_budget_mode c₁ es load (lr?.getD es.learning_readiness))) : ℤ) : ℚ)
      ≤ ((get_base_budget_for_mode cfg
      (m?.getD (determine_budget_mode c₂ es load (lr?.getD es.learning_readiness))) : ℤ) : ℚ) := by
    exact_mod_cast hbase
  have hK : (0 : ℚ) ≤ get_emotion_factor es * get_cognitive_load_factor load *
      get_readiness_factor (lr?.getD es.learning_readiness) := by
    apply mul_nonneg (mul_nonneg (by linarith) (by linarith)) (by linarith)
  calc ((get_base_budget_for_mode cfg
        (m?.getD (determine_budget_mode c₁ es load (lr?.getD es.learning_readiness))) : ℤ) : ℚ) *
        get_emotion_factor es * get_cognitive_load_factor load *
        get_readiness_factor (lr?.getD es.learning_readiness) * (4/5 + c₁ * (2/5))
      = (((get_base_budget_for_mode cfg
        (m?.getD (determine_budget_mode c₁ es load (lr?.getD es.learning_readiness))) : ℤ) : ℚ) *
        (4/5 + c₁ * (2/5))) *
        (get_emotion_factor es * get_cognitive_load_factor load *
          get_readiness_factor (lr?.getD es.learning_readiness)) := by ring
    _ ≤ (((get_base_budget_for_mode cfg
        (m?.getD (determine_budget_mode c₂ es load (lr?.getD es.learning_readiness))) : ℤ) : ℚ) *
        (4/5 + c₂ * (2/5))) *
        (get_emotion_factor es * get_cognitive_load_factor load *
          get_readiness_factor (lr?.getD es.learning_readiness)) := by
        apply mul_le_mul_of_nonneg_right _ hK
        exact mul_le_mul hbQ (by linarith) (by linarith) (by linarith)
    _ = ((get_base_budget_for_mode cfg
        (m?.getD (determine_budget_mode c₂ es load (lr?.getD es.learning_readiness))) : ℤ) : ℚ) *
        get_emotion_factor es * get_cognitive_load_factor load *
        get_readiness_factor (lr?.getD es.learning_readiness) * (4/5 + c₂ * (2/5)) := by
        ring

theorem share_mono (cfg : BudgetConfig) (es : EmotionState) (load : ℚ)
    {c₁ c₂ : ℚ} (h : c₁ ≤ c₂) :
    calculate_reasoning_share cfg c₁ es load
      ≤ calculate_reasoning_share cfg c₂ es load := by
  simp only [calculate_reasoning_share]
  rw [pyMax_eq_max, pyMax_eq_max, pyMin_eq_min, pyMin_eq_min]
  apply max_le_max le_rfl
  apply min_le_min _ le_rfl
  split_ifs with ha hb <;> linarith

/-- C7: with the emotion state, cognitive load, readiness, ceiling and
configuration fixed, increasing the explicit complexity argument of
`allocate_budget` never decreases the returned `total_tokens`, and
never decreases the reasoning ratio used for the split. -/
theorem C7_monotone_in_complexity (cfg : BudgetConfig) (es : EmotionState) (load : ℚ)
    (m? : Option BudgetMode) (lr? : Option LearningReadiness) (pmt : Option ℤ)
    (c₁ c₂ : ℚ) (b₁ b₂ : TokenBudget) (hv : cfg.Valid)
    (h0 : 0 ≤ c₁) (h12 : c₁ ≤ c₂)
    (h1 : allocate_budget cfg es load (some c₁) m? none lr? pmt false = .ok b₁)
    (h2 : allocate_budget cfg es load (some c₂) m? none lr? pmt false = .ok b₂) :
    b₁.total_tokens ≤ b₂.total_tokens ∧
    calculate_reasoning_share cfg c₁ es load
      ≤ calculate_reasoning_share cfg c₂ es load := by
  rw [allocate_budget_some_ok h1, allocate_budget_some_ok h2]
  exact ⟨allocate_ok_total_mono cfg hv es load m? lr? pmt h0 h12,
         share_mono cfg es load h12⟩

theorem mode_neutral_quarter :
    determine_budget_mode (1/4) esNeutral (1/2) .MODERATE_READINESS = .BALANCED := by
  simp [determine_budget_mode, is_struggling, is_confident, esNeutral]
  norm_num

theorem mode_neutral_threequarters :
    determine_budget_mode (3/4) esNeutral (1/2) .MODERATE_READINESS = .AGGRESSIVE := by
  simp [determine_budget_mode, is_struggling, is_confident, esNeutral]
  norm_num

theorem share_neutral_quarter :
    calculate_reasoning_share defaultBudgetConfig (1/4) esNeutral (1/2) = 1/2 := by
  simp [calculate_reasoning_share, esNeutral, defaultBudgetConfig]
  norm_num [pyMax, pyMin]

theorem share_neutral_threequarters :
    calculate_reasoning_share defaultBudgetConfig (3/4) esNeutral (1/2) = 13/20 := by
  simp [calculate_reasoning_share, esNeutral, defaultBudgetConfig]
  norm_num [pyMax, pyMin]

theorem alloc_ok_quarter :
    allocate_ok defaultBudgetConfig esNeutral (1/2) (1/4) none
      (some .MODERATE_READINESS) none
    = ⟨1620, 1620, 3240, 1/4, 1, 1, 9/10, .BALANCED⟩ := by
  unfold allocate_ok
  rw [ef_neutral, lf_half]
  simp only [Option.getD_some, Option.getD_none, rf_moderate, mode_neutral_quarter,
    share_neutral_quarter, safe_max_default]
  norm_num [get_base_budget_for_mode, defaultBudgetConfig, pyInt, pyMinI, pyMaxI]

theorem alloc_ok_threequarters :
    allocate_ok defaultBudgetConfig esNeutral (1/2) (3/4) none
      (some .MODERATE_READINESS) none
    = ⟨4182, 2253, 6435, 3/4, 1, 1, 9/10, .AGGRESSIVE⟩ := by
  unfold allocate_ok
  rw [ef_neutral, lf_half]
  simp only [Option.getD_some, Option.getD_none, rf_moderate,
    mode_neutral_threequarters, share_neutral_threequarters, safe_max_default]
  norm_num [get_base_budget_for_mode, defaultBudgetConfig, pyInt, pyMinI, pyMaxI]

theorem alloc_quarter :
    allocate_budget defaultBudgetConfig esNeutral (1/2) (some (1/4)) none
      none (some .MODERATE_READINESS) none false
    = .ok ⟨1620, 1620, 3240, 1/4, 1, 1, 9/10, .BALANCED⟩ := by
  rw [show (.ok ⟨1620, 1620, 3240, 1/4, 1, 1, 9/10, .BALANCED⟩ :
      Except String TokenBudget)
    = .ok (allocate_ok defaultBudgetConfig esNeutral (1/2) (1/4) none
      (some .MODERATE_READINESS) none) from by rw [alloc_ok_quarter]]
  simp [allocate_budget]
  norm_num

theorem alloc_threequarters :
    allocate_budget defaultBudgetConfig esNeutral (1/2) (some (3/4)) none
      none (some .MODERATE_READINESS) none false
    = .ok ⟨4182, 2253, 6435, 3/4, 1, 1, 9/10, .AGGRESSIVE⟩ := by
  rw [show (.ok ⟨4182, 2253, 6435, 3/4, 1, 1, 9/10, .AGGRESSIVE⟩ :
      Except String TokenBudget)
    = .ok (allocate_ok defaultBudgetConfig esNeutral (1/2) (3/4) none
      (some .MODERATE_READINESS) none) from by rw [alloc_ok_threequarters]]
  simp [allocate_budget]
  norm_num

/-- Witness for C7: complexity 1/4 vs 3/4 at the neutral state gives
totals 3240 <= 6435 and shares 0.5 <= 0.65. -/
theorem C7_witness :
    ((⟨1620, 1620, 3240, 1/4, 1, 1, 9/10, .BALANCED⟩ : TokenBudget).total_tokens
      ≤ (⟨4182, 2253, 6435, 3/4, 1, 1, 9/10, .AGGRESSIVE⟩ : TokenBudget).total_tokens) ∧
    calculate_reasoning_share defaultBudgetConfig (1/4) esNeutral (1/2)
      ≤ calculate_reasoning_share defaultBudgetConfig (3/4) esNeutral (1/2) :=
  C7_monotone_in_complexity defaultBudgetConfig esNeutral (1/2) none (some .MODERATE_READINESS) none
    (1/4) (3/4) _ _ defaultConfigValid (by norm_num) (by norm_num)
    alloc_quarter alloc_threequarters

/-! ## C5: the two complexity estimators -/

theorem techTermsDP_perm : techTermsDP.Perm (techTermsBA ++ dpOnlyTerms) := by decide

theorem questionScore_eq (q : Str) : questionScoreDP q = questionScoreBA q := by
  unfold questionScoreDP questionScoreBA
  have hc : anyWordIn complexQuestionWordsDP q = anyWordIn complexQuestionWordsBA q := rfl
  have hs : anyWordIn simpleQuestionWordsDP q = anyWordIn simpleQuestionWordsBA q := by
    simp only [anyWordIn, simpleQuestionWordsDP, simpleQuestionWordsBA,
      List.any_cons, List.any_nil]
    cases h1 : hasSub (("who").toList) q <;> cases h2 : hasSub (("when").toList) q <;>
      simp [h1, h2]
  rw [hc, hs]

theorem techTermCount_dp_eq (q : Str)
    (h : ∀ t ∈ dpOnlyTerms, hasSub t.toList q = false) :
    techTermCount techTermsDP q = techTermCount techTermsBA q := by
  unfold techTermCount
  rw [(techTermsDP_perm.filter _).length_eq]
  rw [List.filter_append, List.length_append]
  have hnil : (dpOnlyTerms.filter (fun t => hasSub t.toList q)) = [] := by
    apply List.filter_eq_nil_iff.mpr
    intro a ha
    simp only [Bool.not_eq_true]
    exact h a ha
  rw [hnil]
  simp

/-- C5 (amended): the Mode Selector estimator
(`_analyze_complexity`) and the Budget Allocator estimator
(`_estimate_complexity`) are NOT the same function; they agree exactly
on queries of at most 100 words containing none of the Mode Selector's
extra lexicon entries (`dpOnlyTerms`: database/acid/compliance, the
economics block, and the duplicated `optimization`), where their length
scaling and term lists coincide. -/
theorem C5_estimators_agree_conditionally (q : Str) (hwc : wordCount q ≤ 100)
    (hex : ∀ t ∈ dpOnlyTerms, hasSub t.toList (lowerStr q) = false) :
    analyze_complexity q = estimate_complexity q := by
  unfold analyze_complexity estimate_complexity
  by_cases hb : isBlank q = true
  · simp [hb]
  · rw [if_neg hb, if_neg hb]
    have hl : lengthScoreDP (wordCount q) = lengthScoreBA (wordCount q) := by
      unfold lengthScoreDP lengthScoreBA
      rw [if_neg (by omega), if_neg (by omega)]
    rw [hl, techTermCount_dp_eq _ hex, questionScore_eq]

theorem analyze_complexity_database :
    analyze_complexity (("database").toList) = 279/1000 := by
  have hb : isBlank (("database").toList) = false := by decide
  have hwc : wordCount (("database").toList) = 1 := by decide
  have htc : techTermCount techTermsDP (lowerStr (("database").toList)) = 1 := by decide
  have hqc : anyWordIn complexQuestionWordsDP (lowerStr (("database").toList)) = false := by
    decide
  have hqs : anyWordIn simpleQuestionWordsDP (lowerStr (("database").toList)) = false := by
    decide
  have hqm : (((("database").toList) : Str).countP (fun c => c == '?')) = 0 := by decide
  rw [analyze_complexity.eq_def, hb]
  rw [hwc, htc]
  rw [questionScoreDP.eq_def, hqc, hqs]
  rw [multiQuestionBonus.eq_def, hqm]
  norm_num [lengthScoreDP, pyMin]

theorem estimate_complexity_database :
    estimate_complexity (("database").toList) = 129/1000 := by
  have hb : isBlank (("database").toList) = false := by decide
  have hwc : wordCount (("database").toList) = 1 := by decide
  have htc : techTermCount techTermsBA (lowerStr (("database").toList)) = 0 := by decide
  have hqc : anyWordIn complexQuestionWordsBA (lowerStr (("database").toList)) = false := by
    decide
  have hqs : anyWordIn simpleQuestionWordsBA (lowerStr (("database").toList)) = false := by
    decide
  have hqm : (((("database").toList) : Str).countP (fun c => c == '?')) = 0 := by decide
  rw [estimate_complexity.eq_def, hb]
  rw [hwc, htc]
  rw [questionScoreBA.eq_def, hqc, hqs]
  rw [multiQuestionBonus.eq_def, hqm]
  norm_num [lengthScoreBA, pyMin]

/-- Counterexample for C5 as stated: on the one-word query `database`
the two estimators return 0.279 and 0.129 respectively. -/
theorem C5_counterexample :
    analyze_complexity (("database").toList)
      ≠ estimate_complexity (("database").toList) := by
  rw [analyze_complexity_database, estimate_complexity_database]
  norm_num

/-- Witness for C5 (amended): the estimators agree on `hello`. -/
theorem C5_witness :
    analyze_complexity (("hello").toList) = estimate_complexity (("hello").toList) :=
  C5_estimators_agree_conditionally (("hello").toList) (by decide) (by decide)

/-! ## C6: the simulation value formula -/

/-- C6 (amended): the simulation step computes
`0.4*min(depth/5,1) + 0.4*min(word_count/50,1) + 0.04*(distinct
strategy tags on the path / total known tags)`: the diversity ratio is
multiplied by 0.2 once inside `diversity_bonus` and once more in the
weighted combination, so its effective weight is 0.04, not the claimed
0.2. -/
theorem C6_simulate_diversity_weight (node : MCTSNode) (ancestors : List MCTSNode) :
    simulate node ancestors
      = (2/5) * pyMin ((node.depth : ℚ) / 5) 1 +
        (2/5) * pyMin ((wordCount node.content : ℚ) / 50) 1 +
        (1/25) * ((((node :: ancestors).map MCTSNode.strategy).dedup.length : ℚ) /
          (allReasoningStrategies.length : ℚ)) := by
  simp only [simulate]
  ring

/-- Counterexample for C6 as stated: on a childless root with one-word
content, `simulate` returns 11/750 while the claimed formula gives
31/750. -/
theorem C6_counterexample :
    simulate (MCTSNode.mk (['x']) .DEDUCTIVE [] 0 0 0) []
      ≠ simulateClaimFormula (MCTSNode.mk (['x']) .DEDUCTIVE [] 0 0 0) [] := by
  have hwc : wordCount (['x']) = 1 := by decide
  simp only [simulate, simulateClaimFormula, MCTSNode.depth, MCTSNode.content,
    MCTSNode.strategy, List.map_cons, List.map_nil, hwc, allReasoningStrategies]
  norm_num [List.dedup_cons_of_not_mem, pyMin, min_def]

/-! ## C3: chain generation when every step-generation call fails -/

theorem bump_children (n : MCTSNode) (v : ℚ) : (n.bump v).children = n.children := by
  cases n; rfl

theorem bump_depth (n : MCTSNode) (v : ℚ) : (n.bump v).depth = n.depth := by
  cases n; rfl

theorem bump_content (n : MCTSNode) (v : ℚ) : (n.bump v).content = n.content := by
  cases n; rfl

theorem selectPath_childless (ew : ℝ) (fuel : ℕ) (n : MCTSNode)
    (h : n.children = []) : selectPath ew fuel n = [] := by
  cases fuel with
  | zero => rfl
  | succ k => simp [selectPath, h]

theorem mctsIteration_childless_fail (gen : ℕ → Option Str) (maxSteps : ℕ)
    (n : MCTSNode) (k : ℕ) (hch : n.children = []) (hgen : gen k = none)
    (hd : n.depth < maxSteps) :
    mctsIteration gen maxSteps (n, k) = (n.bump (simulate n []), k + 1) := by
  simp only [mctsIteration]
  rw [selectPath_childless _ _ _ hch]
  simp [getNodeAt, hd, hgen, nodesOnPath, backpropagate]

theorem alwaysfail_iterate (maxSteps m : ℕ) :
    ∀ (n : MCTSNode) (k : ℕ), n.children = [] → n.depth < maxSteps →
    ∃ n', ((List.range m).foldl
        (fun st _ => mctsIteration (fun _ => none) maxSteps st) (n, k))
      = (n', k + m) ∧ n'.children = [] ∧ n'.depth = n.depth := by
  induction m with
  | zero =>
    intro n k h hd
    exact ⟨n, by simp, h, rfl⟩
  | succ m ih =>
    intro n k h hd
    rw [List.range_succ, List.foldl_append]
    obtain ⟨n', heq, hch', hdep'⟩ := ih n k h hd
    rw [heq]
    simp only [List.foldl_cons, List.foldl_nil]
    rw [mctsIteration_childless_fail _ _ _ _ hch' rfl (hdep' ▸ hd)]
    refine ⟨n'.bump (simulate n' []), rfl, ?_, ?_⟩
    · rw [bump_children]; exact hch'
    · rw [bump_depth]; exact hdep'

theorem extractSteps_childless (fuel : ℕ) (n : MCTSNode) (acc : List ReasoningStep)
    (h : n.children = []) : extractSteps fuel n acc = (acc, n) := by
  cases fuel with
  | zero => rfl
  | succ k => simp [extractSteps, h]

theorem extract_best_path_childless (fuel : ℕ) (n : MCTSNode)
    (h : n.children = []) :
    (extract_best_path fuel n).steps = [] ∧
    (extract_best_path fuel n).conclusion = ("No reasoning steps generated").toList := by
  unfold extract_best_path
  rw [extractSteps_childless _ _ _ h]
  simp

theorem mcts_alwaysfail (maxIter : ℕ) (query : Str) (maxSteps : ℕ)
    (h : 0 < maxSteps) :
    (mcts_generate_reasoning_chain (fun _ => none) maxIter query maxSteps).steps = [] ∧
    (mcts_generate_reasoning_chain (fun _ => none) maxIter query maxSteps).conclusion
      = ("No reasoning steps generated").toList := by
  simp only [mcts_generate_reasoning_chain]
  obtain ⟨n', heq, hch', -⟩ := alwaysfail_iterate maxSteps (min maxIter maxSteps)
    (.mk (("Query: ").toList ++ query) .DEDUCTIVE [] 0 0 0) 0 rfl
    (by simpa [MCTSNode.depth] using h)
  rw [heq]
  simpa using extract_best_path_childless (maxSteps + 1) n' hch'

theorem calculate_reasoning_depth_pos (mode : ThinkingMode) (b : TokenBudget) :
    0 < calculate_reasoning_depth mode b := by
  cases mode with
  | SYSTEM1 => norm_num [calculate_reasoning_depth]
  | SYSTEM2 => simp [calculate_reasoning_depth, pyMinI_eq_min, pyMaxI_eq_max]
  | HYBRID => simp [calculate_reasoning_depth, pyMinI_eq_min, pyMaxI_eq_max]

theorem mark_complete_steps (c : ReasoningChain) (x : Str) :
    (c.mark_complete x).steps = c.steps := rfl

theorem mark_complete_completed (c : ReasoningChain) (x : Str) :
    (c.mark_complete x).completed = true := rfl

/-- C3 (amended): `generate_reasoning_chain` never raises and always
returns a chain with its completion timestamp set; but when the MCTS
engine is present and step-generation fails on every call, the returned
chain has ZERO steps (the search tree never grows, `_extract_best_path`
returns an empty path, and the orchestrator appends nothing).  The
one-step guarantee holds only when the engine is absent or an exception
reaches the orchestrator's handler. -/
theorem C3_failing_generator_zero_steps (query : Str) (es : EmotionState) (load : ℚ)
    (mode : ThinkingMode) (budget : TokenBudget) :
    ((generate_reasoning_chain query es load mode budget true
        (fun _ => none) false).completed = true ∧
     (generate_reasoning_chain query es load mode budget true
        (fun _ => none) false).steps = []) ∧
    (∀ (hasE : Bool) (gen : ℕ → Option Str),
       (generate_reasoning_chain query es load mode budget hasE gen true).completed
         = true ∧
       (generate_reasoning_chain query es load mode budget hasE gen true).steps.length
         = 1) ∧
    (∀ (gen : ℕ → Option Str),
       (generate_reasoning_chain query es load mode budget false gen false).completed
         = true ∧
       (generate_reasoning_chain query es load mode budget false gen false).steps.length
         = 1) := by
  refine ⟨?_, ?_, ?_⟩
  · obtain ⟨hsteps, -⟩ := mcts_alwaysfail 10 query
      (calculate_reasoning_depth mode budget)
      (calculate_reasoning_depth_pos mode budget)
    constructor <;>
      simp [generate_reasoning_chain, hsteps, mark_complete_completed,
        mark_complete_steps]
  · intro hasE gen
    constructor <;>
      simp [generate_reasoning_chain, ReasoningChain.add_step,
        mark_complete_completed, mark_complete_steps]
  · intro gen
    constructor <;>
      simp [generate_reasoning_chain, ReasoningChain.add_step,
        mark_complete_completed, mark_complete_steps]

/-- Counterexample for C3 as stated: at a concrete query and budget,
with the engine present and a generator failing on every call, the
returned chain is completed but has no steps at all. -/
theorem C3_counterexample :
    (generate_reasoning_chain (("What is 2+2?").toList) esNeutral (1/2) .SYSTEM2
      ⟨1200, 1200, 2400, 0, 1, 1, 1, .BALANCED⟩ true
      (fun _ => none) false).steps = [] ∧
    (generate_reasoning_chain (("What is 2+2?").toList) esNeutral (1/2) .SYSTEM2
      ⟨1200, 1200, 2400, 0, 1, 1, 1, .BALANCED⟩ true
      (fun _ => none) false).completed = true := by
  obtain ⟨hsteps, -⟩ := mcts_alwaysfail 10 (("What is 2+2?").toList)
    (calculate_reasoning_depth .SYSTEM2 ⟨1200, 1200, 2400, 0, 1, 1, 1, .BALANCED⟩)
    (calculate_reasoning_depth_pos .SYSTEM2 ⟨1200, 1200, 2400, 0, 1, 1, 1, .BALANCED⟩)
  rw [show (("What is 2+2?").toList)
      = ['W', 'h', 'a', 't', ' ', 'i', 's', ' ', '2', '+', '2', '?'] from rfl] at hsteps
  constructor <;>
    simp [generate_reasoning_chain, hsteps, mark_complete_completed,
      mark_complete_steps]

end Pheonix
